import Mathlib

set_option maxRecDepth 8000

/-
Shallow embedding of the bevy-progressbar crate (src/lib.rs): the
ProgressBar data model, its mutators, the ProgressBarMaterial update
procedure, and the per-frame update_progress_bar system.

Rust f32 values are modelled exactly: every finite IEEE-754 binary32
value is an integer multiple of 2^(-149), so a finite value is
represented by that integer (the value scaled by 2^149).  NaN and the
two infinities are explicit constructors; the sign of zero is not
tracked (negative zero is represented as 0, which is adequate here
because no observation made by this crate distinguishes the two zeros).
Arithmetic is correctly rounded (round to nearest, ties to even),
including subnormal handling and overflow to infinity, matching the
IEEE-754 semantics Rust guarantees for f32 + and /.
-/

/-- Floor of the base-2 logarithm of n, computed by fuelled halving so
that the kernel can evaluate it (the first argument is fuel; natLog2
below supplies enough). Returns 0 for n = 0. -/
def natLog2F : ℕ → ℕ → ℕ
  | 0, _ => 0
  | fuel + 1, n => if n ≤ 1 then 0 else natLog2F fuel (n / 2) + 1

/-- Floor of the base-2 logarithm of n (0 for n = 0). -/
def natLog2 (n : ℕ) : ℕ := natLog2F n n

/-- Round the rational num / den (den ≠ 0) to the nearest integer,
ties going to the even neighbour. -/
def rdivNE (num den : ℕ) : ℕ :=
  let q := num / den
  let r := num % den
  if 2 * r < den then q
  else if den < 2 * r then q + 1
  else if q % 2 = 0 then q else q + 1

/-- Floor of the base-2 logarithm of the positive rational num / den. -/
def qfloorLog2 (num den : ℕ) : ℤ :=
  let l1 := natLog2 num
  let l2 := natLog2 den
  if den * 2 ^ l1 ≤ num * 2 ^ l2 then (l1 : ℤ) - l2 else (l1 : ℤ) - l2 - 1

/-- Round the positive rational num / den to the binary32 grid
(round to nearest, ties to even, subnormals flushed to the 2^(-149)
grid).  Returns the resulting value scaled by 2^149, or none when the
rounded value overflows to infinity (reaches 2^128). -/
def roundPos (num den : ℕ) : Option ℕ :=
  let e : ℤ := max (qfloorLog2 num den) (-126)
  let sh : ℤ := 23 - e
  let s : ℕ :=
    if 0 ≤ sh then rdivNE (num * 2 ^ sh.toNat) den
    else rdivNE num (den * 2 ^ (-sh).toNat)
  if 128 ≤ e ∨ (e = 127 ∧ s = 2 ^ 24) then none
  else some (s * 2 ^ (e + 126).toNat)

/-- Model of Rust f32 (IEEE-754 binary32).  A finite value v is stored
as the integer v * 2^149; the sign of zero is not tracked. -/
inductive F32 : Type where
  | nan : F32
  | posInf : F32
  | negInf : F32
  | finite : ℤ → F32
deriving DecidableEq

/-- Correctly rounded conversion of the rational (-1)^neg * num / den
into the F32 model.  A zero denominator gives nan (callers never pass
one); a zero numerator gives zero. -/
def F32.ofRatParts (neg : Bool) (num den : ℕ) : F32 :=
  if den = 0 then F32.nan
  else if num = 0 then F32.finite 0
  else
    match roundPos num den with
    | some k => F32.finite (if neg then -(k : ℤ) else (k : ℤ))
    | none => if neg then F32.negInf else F32.posInf

/-- Conversion of an unsigned integer to f32 (the Rust cast as f32,
which rounds to nearest for values above 2^24). -/
def F32.ofNat (n : ℕ) : F32 := F32.ofRatParts false n 1

/-- The f32 literal 1.0, scaled representation 2^149. -/
def F32.one : F32 := F32.finite (2 ^ 149)

/-- Rust f32 clamp(0.0, 1.0): min if self < min, max if self > max,
otherwise self; NaN is returned unchanged (Rust clamp propagates NaN
when the bounds are non-NaN). -/
def F32.clamp01 : F32 → F32
  | F32.nan => F32.nan
  | F32.posInf => F32.finite (2 ^ 149)
  | F32.negInf => F32.finite 0
  | F32.finite k =>
    if k < 0 then F32.finite 0
    else if (2 ^ 149 : ℤ) < k then F32.finite (2 ^ 149)
    else F32.finite k

/-- IEEE-754 binary32 addition (correctly rounded).  The exact sum of
two grid values lies on the 2^(-149) grid, so it is re-rounded from its
scaled integer. -/
def F32.add : F32 → F32 → F32
  | F32.nan, _ => F32.nan
  | _, F32.nan => F32.nan
  | F32.posInf, F32.negInf => F32.nan
  | F32.negInf, F32.posInf => F32.nan
  | F32.posInf, _ => F32.posInf
  | _, F32.posInf => F32.posInf
  | F32.negInf, _ => F32.negInf
  | _, F32.negInf => F32.negInf
  | F32.finite a, F32.finite b =>
    F32.ofRatParts (decide (a + b < 0)) (a + b).natAbs (2 ^ 149)

/-- IEEE-754 binary32 division (correctly rounded); 0/0 and inf/inf are
NaN, x/0 for finite nonzero x is a signed infinity, finite/inf is zero. -/
def F32.div : F32 → F32 → F32
  | F32.nan, _ => F32.nan
  | _, F32.nan => F32.nan
  | F32.posInf, F32.posInf => F32.nan
  | F32.posInf, F32.negInf => F32.nan
  | F32.negInf, F32.posInf => F32.nan
  | F32.negInf, F32.negInf => F32.nan
  | F32.posInf, F32.finite b => if b < 0 then F32.negInf else F32.posInf
  | F32.negInf, F32.finite b => if b < 0 then F32.posInf else F32.negInf
  | F32.finite _, F32.posInf => F32.finite 0
  | F32.finite _, F32.negInf => F32.finite 0
  | F32.finite a, F32.finite b =>
    if b = 0 then
      if a = 0 then F32.nan
      else if a < 0 then F32.negInf else F32.posInf
    else F32.ofRatParts (decide (a < 0) != decide (b < 0)) a.natAbs b.natAbs

/-- The value lies in the real interval [0.0, 1.0] (false for NaN and
the infinities). -/
def F32.mem01 : F32 → Bool
  | F32.finite k => decide (0 ≤ k ∧ k ≤ 2 ^ 149)
  | _ => false

/-- The value lies in [0.0, 1.0] or is NaN. -/
def F32.mem01OrNan : F32 → Bool
  | F32.nan => true
  | x => F32.mem01 x

/-- Model of bevy_color LinearRgba: four f32 channels. -/
structure LinearRgba where
  red : F32
  green : F32
  blue : F32
  alpha : F32
deriving DecidableEq

/-- The fully transparent linear color LinearRgba::NONE. -/
def LinearRgba.NONE : LinearRgba :=
  ⟨F32.finite 0, F32.finite 0, F32.finite 0, F32.finite 0⟩

/-- Model of bevy_color Color (a dependency of the crate, not defined in
it).  The progress-bar code only ever observes a Color through its
to_linear conversion, so the model keeps exactly that observation. -/
structure Color where
  linear : LinearRgba
deriving DecidableEq

/-- Conversion of a Color into linear color space. -/
def Color.to_linear (c : Color) : LinearRgba := c.linear

/-- The fully transparent Color::NONE. -/
def Color.NONE : Color := ⟨LinearRgba.NONE⟩

/-- The ProgressBar component (src/lib.rs lines 33-43): clamped progress,
an ordered list of (weight, color) sections with u32 weights, and the
color of the space not progressed to.  Section weights are u32 values;
they are represented as naturals and every u32 arithmetic step of the
code is embedded with its explicit mod 2^32. -/
structure ProgressBar where
  progress : F32
  sections : List (ℕ × Color)
  empty_color : Color
deriving DecidableEq

/-- ProgressBar::new (lines 54-60). -/
def ProgressBar.new (sections : List (ℕ × Color)) : ProgressBar :=
  { progress := F32.finite 0, sections := sections, empty_color := Color.NONE }

/-- ProgressBar::single (lines 62-68). -/
def ProgressBar.single (color : Color) : ProgressBar :=
  { progress := F32.finite 0, sections := [(1, color)], empty_color := Color.NONE }

/-- Default::default for ProgressBar (lines 146-154). -/
def ProgressBar.mkDefault : ProgressBar :=
  { progress := F32.finite 0, sections := [], empty_color := Color.NONE }

/-- ProgressBar::set_progress (lines 87-90): stores amount.clamp(0.0, 1.0). -/
def ProgressBar.set_progress (bar : ProgressBar) (amount : F32) : ProgressBar :=
  { bar with progress := amount.clamp01 }

/-- ProgressBar::get_progress (lines 93-95). -/
def ProgressBar.get_progress (bar : ProgressBar) : F32 := bar.progress

/-- ProgressBar::increase_progress (lines 109-113): adds, then clamps. -/
def ProgressBar.increase_progress (bar : ProgressBar) (amount : F32) : ProgressBar :=
  { bar with progress := (bar.progress.add amount).clamp01 }

/-- ProgressBar::reset (lines 116-119). -/
def ProgressBar.reset (bar : ProgressBar) : ProgressBar :=
  { bar with progress := F32.finite 0 }

/-- ProgressBar::is_finished (lines 131-133): progress >= 1.0 (an IEEE
comparison, false for NaN). -/
def ProgressBar.is_finished (bar : ProgressBar) : Bool :=
  match bar.progress with
  | F32.nan => false
  | F32.posInf => true
  | F32.negInf => false
  | F32.finite k => decide ((2 ^ 149 : ℤ) ≤ k)

/-- ProgressBar::clear_sections (lines 135-138). -/
def ProgressBar.clear_sections (bar : ProgressBar) : ProgressBar :=
  { bar with sections := [] }

/-- ProgressBar::add_section (lines 140-143): appends at the end. -/
def ProgressBar.add_section (bar : ProgressBar) (amount : ℕ) (color : Color) :
    ProgressBar :=
  { bar with sections := bar.sections ++ [(amount, color)] }

/-- One call to a mutating ProgressBar method, for stating properties of
arbitrary mutation sequences. -/
inductive MutOp : Type where
  | set_progress : F32 → MutOp
  | increase_progress : F32 → MutOp
  | reset : MutOp
  | clear_sections : MutOp
  | add_section : ℕ → Color → MutOp

/-- Apply one mutating method call. -/
def applyMutOp (bar : ProgressBar) : MutOp → ProgressBar
  | MutOp.set_progress x => bar.set_progress x
  | MutOp.increase_progress x => bar.increase_progress x
  | MutOp.reset => bar.reset
  | MutOp.clear_sections => bar.clear_sections
  | MutOp.add_section w c => bar.add_section w c

/-- Apply a sequence of mutating method calls, oldest first. -/
def applyMutOps (bar : ProgressBar) (ops : List MutOp) : ProgressBar :=
  ops.foldl applyMutOp bar

/-- A ProgressBar obtained from one of the three constructors. -/
def ProgressBar.constructed (bar : ProgressBar) : Prop :=
  (∃ ss, bar = ProgressBar.new ss) ∨ (∃ c, bar = ProgressBar.single c) ∨
    bar = ProgressBar.mkDefault

/-- Model of a bevy ShaderStorageBuffer holding either the color data or
the percentage data uploaded by the material update. -/
inductive ShaderStorageBuffer : Type where
  | colorData : List LinearRgba → ShaderStorageBuffer
  | floatData : List F32 → ShaderStorageBuffer
deriving DecidableEq

/-- Model of a bevy Assets collection: a store of id-keyed entries plus
the next fresh id.  Assets::add registers a new asset under a fresh
handle; handles are modelled as the natural-number ids. -/
structure Assets (α : Type) where
  nextId : ℕ
  store : List (ℕ × α)
deriving DecidableEq

/-- Assets::add: registers the asset under a fresh handle and returns
the handle together with the grown collection. -/
def Assets.add {α : Type} (assets : Assets α) (a : α) : ℕ × Assets α :=
  (assets.nextId, { nextId := assets.nextId + 1, store := (assets.nextId, a) :: assets.store })

/-- Assets::get / get_mut: resolve a handle to its asset, if present. -/
def Assets.get {α : Type} (assets : Assets α) (id : ℕ) : Option α :=
  (assets.store.find? (fun p => p.1 == id)).map Prod.snd

/-- Overwrite the asset stored under an existing handle (the effect of
mutating through Assets::get_mut). -/
def Assets.set {α : Type} (assets : Assets α) (id : ℕ) (a : α) : Assets α :=
  { assets with store := assets.store.map (fun p => if p.1 = id then (id, a) else p) }

/-- The ProgressBarMaterial asset (lines 181-193): two uniform scalars,
two storage-buffer handles and the section count (a u32). -/
structure ProgressBarMaterial where
  empty_color : LinearRgba
  progress : F32
  sections_color : ℕ
  sections_start_percentage : ℕ
  sections_count : ℕ
deriving DecidableEq

/-- Default::default for ProgressBarMaterial (lines 195-205); the
default handle is modelled as id 0 of an empty collection. -/
def ProgressBarMaterial.mkDefault : ProgressBarMaterial :=
  { empty_color := LinearRgba.NONE, progress := F32.finite 0,
    sections_color := 0, sections_start_percentage := 0, sections_count := 0 }

/-- The u32 sum of the section weights (line 216): an iterator sum over
u32, i.e. a left fold of wrapping-mod-2^32 addition in release builds. -/
def total_amount (sections : List (ℕ × Color)) : ℕ :=
  sections.foldl (fun acc s => (acc + s.1) % 2 ^ 32) 0

/-- ProgressBarMaterial::update (lines 209-226): copies empty_color
(linearized) and progress, recomputes for every section the percentage
1.0 / (total_amount as f32 / amount as f32) and the linear color (one
loop, in section order), registers the two freshly built vectors as new
storage buffers, and stores their handles and the section count
(len() cast to u32).  Every field of the material is rewritten, so the
incoming material value is not consulted. -/
def ProgressBarMaterial.update (_mat : ProgressBarMaterial) (bar : ProgressBar)
    (buffers : Assets ShaderStorageBuffer) :
    ProgressBarMaterial × Assets ShaderStorageBuffer :=
  let ta : ℕ := total_amount bar.sections
  let percentages : List F32 :=
    bar.sections.map (fun s => F32.div F32.one (F32.div (F32.ofNat ta) (F32.ofNat s.1)))
  let colors : List LinearRgba := bar.sections.map (fun s => s.2.to_linear)
  let addColors := buffers.add (ShaderStorageBuffer.colorData colors)
  let addPcts := addColors.2.add (ShaderStorageBuffer.floatData percentages)
  ({ empty_color := bar.empty_color.to_linear,
     progress := bar.progress,
     sections_color := addColors.1,
     sections_start_percentage := addPcts.1,
     sections_count := bar.sections.length % 2 ^ 32 }, addPcts.2)

/-- One iteration of the loop body of the update_progress_bar system
(lines 240-246): resolve the material handle, skip the pairing when it
does not resolve, otherwise run the material update. -/
def update_step (acc : Assets ProgressBarMaterial × Assets ShaderStorageBuffer)
    (pair : ProgressBar × ℕ) :
    Assets ProgressBarMaterial × Assets ShaderStorageBuffer :=
  match acc.1.get pair.2 with
  | none => acc
  | some material =>
    let r := material.update pair.1 acc.2
    (acc.1.set pair.2 r.1, r.2)

/-- The update_progress_bar system (lines 235-247): fold the loop body
over all queried (ProgressBar, material handle) pairings. -/
def update_progress_bar (pairs : List (ProgressBar × ℕ))
    (materials : Assets ProgressBarMaterial)
    (buffers : Assets ShaderStorageBuffer) :
    Assets ProgressBarMaterial × Assets ShaderStorageBuffer :=
  pairs.foldl update_step (materials, buffers)

/-- The state visible to one run of the system: the queried pairings
(the system takes the ProgressBar components by shared reference) and
the two asset collections (taken mutably). -/
structure World where
  pairs : List (ProgressBar × ℕ)
  materials : Assets ProgressBarMaterial
  buffers : Assets ShaderStorageBuffer

/-- One scheduler tick of the update_progress_bar system: the bars are
read-only inputs, the asset collections are rewritten. -/
def tick (w : World) : World :=
  let r := update_progress_bar w.pairs w.materials w.buffers
  { pairs := w.pairs, materials := r.1, buffers := r.2 }

/-- The percentage list built by the update loop (lines 217-220): for each
section, 1.0 / (total_amount as f32 / amount as f32), in section order. -/
def pctList (bar : ProgressBar) : List F32 :=
  bar.sections.map (fun s =>
    F32.div F32.one (F32.div (F32.ofNat (total_amount bar.sections)) (F32.ofNat s.1)))

/-- The linear color list built by the update loop (lines 217-220), in
section order. -/
def colorList (bar : ProgressBar) : List LinearRgba :=
  bar.sections.map (fun s => s.2.to_linear)

/-- An opaque red test color. -/
def cRed : Color := ⟨⟨F32.one, F32.finite 0, F32.finite 0, F32.one⟩⟩

/-- An opaque blue test color. -/
def cBlue : Color := ⟨⟨F32.finite 0, F32.finite 0, F32.one, F32.one⟩⟩

/-- The two-section bar with weights 10 and 9 used by the spec example. -/
def bar109 : ProgressBar := ProgressBar.new [(10, cRed), (9, cBlue)]

/-- An empty buffer collection. -/
def bufs0 : Assets ShaderStorageBuffer := Assets.mk 0 []

/-- Rust clamp(0.0, 1.0) yields NaN exactly on NaN input, and otherwise a
finite value of the interval [0, 1] (scaled bounds 0 and 2^149). -/
theorem F32.clamp01_spec (x : F32) :
    (x = F32.nan ∧ x.clamp01 = F32.nan) ∨
      (∃ k : ℤ, x.clamp01 = F32.finite k ∧ 0 ≤ k ∧ k ≤ 2 ^ 149) := by
  cases x with
  | nan => exact Or.inl ⟨rfl, rfl⟩
  | posInf => exact Or.inr ⟨2 ^ 149, rfl, by positivity, le_refl _⟩
  | negInf => exact Or.inr ⟨0, rfl, le_refl _, by positivity⟩
  | finite k =>
    refine Or.inr ?_
    simp only [F32.clamp01]
    split
    · exact ⟨0, rfl, le_refl _, by positivity⟩
    · rename_i h1
      split
      · exact ⟨2 ^ 149, rfl, by positivity, le_refl _⟩
      · rename_i h2
        exact ⟨k, rfl, not_lt.mp h1, not_lt.mp h2⟩

/-- The result of clamp(0.0, 1.0) on a non-NaN input lies in [0, 1]. -/
theorem F32.mem01_clamp01 (x : F32) (hx : x ≠ F32.nan) :
    (x.clamp01).mem01 = true := by
  rcases F32.clamp01_spec x with ⟨h1, _⟩ | ⟨k, hk, h0, h1⟩
  · exact absurd h1 hx
  · rw [hk]
    simp only [F32.mem01, decide_eq_true_eq]
    exact ⟨h0, h1⟩

/-- The result of clamp(0.0, 1.0) always lies in [0, 1] or is NaN. -/
theorem F32.mem01OrNan_clamp01 (x : F32) : (x.clamp01).mem01OrNan = true := by
  rcases F32.clamp01_spec x with ⟨_, h⟩ | ⟨k, hk, h0, h1⟩
  · rw [h]; rfl
  · rw [hk]
    show (F32.finite k).mem01 = true
    simp only [F32.mem01, decide_eq_true_eq]
    exact ⟨h0, h1⟩

/-- Every single mutator call keeps the stored progress in [0, 1] or NaN. -/
theorem applyMutOp_mem01OrNan (bar : ProgressBar) (op : MutOp)
    (h : bar.progress.mem01OrNan = true) :
    ((applyMutOp bar op).progress).mem01OrNan = true := by
  cases op with
  | set_progress x => exact F32.mem01OrNan_clamp01 x
  | increase_progress x => exact F32.mem01OrNan_clamp01 _
  | reset =>
    show (F32.finite 0).mem01OrNan = true
    decide
  | clear_sections => exact h
  | add_section w c => exact h

/-- C3 (amended): for every ProgressBar reachable from a constructor by any
sequence of mutator calls with arbitrary f32 arguments, the stored progress
is always in [0.0, 1.0] or NaN; no finite out-of-range value and no
infinity is ever stored, but a NaN argument is stored as NaN because Rust
clamp propagates NaN. -/
theorem claim_C3_progress_invariant_amended (bar : ProgressBar)
    (ops : List MutOp) (hbar : bar.constructed) :
    ((applyMutOps bar ops).progress).mem01OrNan = true := by
  have h0 : bar.progress.mem01OrNan = true := by
    rcases hbar with ⟨ss, rfl⟩ | ⟨c, rfl⟩ | rfl
    · show (F32.finite 0).mem01OrNan = true
      decide
    · show (F32.finite 0).mem01OrNan = true
      decide
    · decide
  clear hbar
  induction ops generalizing bar with
  | nil => exact h0
  | cons op t ih =>
    simp only [applyMutOps, List.foldl_cons] at *
    exact ih (applyMutOp bar op) (applyMutOp_mem01OrNan bar op h0)

/-- C3 witness: the amended invariant at a concrete bar and mutation list. -/
theorem claim_C3_witness :
    ((applyMutOps ProgressBar.mkDefault
        [MutOp.set_progress F32.nan, MutOp.increase_progress F32.one]).progress).mem01OrNan
      = true :=
  claim_C3_progress_invariant_amended ProgressBar.mkDefault
    [MutOp.set_progress F32.nan, MutOp.increase_progress F32.one]
    (Or.inr (Or.inr rfl))

/-- C3 counterexample: set_progress(NaN) stores NaN, which is not in
[0.0, 1.0], so the claimed invariant fails as stated. -/
theorem claim_C3_counterexample :
    ((ProgressBar.mkDefault.set_progress F32.nan).progress).mem01 = false := by
  decide

/-- C4 (amended): after set_progress(x), get_progress() equals
clamp(x, 0.0, 1.0) for every f32 x; the result lies in [0.0, 1.0]
whenever x is not NaN (a NaN argument yields NaN, which Rust clamp does
not sanitize). -/
theorem claim_C4_set_progress_amended (bar : ProgressBar) (x : F32) :
    (bar.set_progress x).get_progress = x.clamp01 ∧
      (x ≠ F32.nan → ((bar.set_progress x).get_progress).mem01 = true) :=
  ⟨rfl, fun hx => F32.mem01_clamp01 x hx⟩

/-- C4 witness: the amended claim at the out-of-range input 2.5 (scaled
representation 5 * 2^148), whose clamp is 1.0. -/
theorem claim_C4_witness :
    (ProgressBar.mkDefault.set_progress (F32.finite (5 * 2 ^ 148))).get_progress
        = (F32.finite (5 * 2 ^ 148)).clamp01 ∧
      ((ProgressBar.mkDefault.set_progress
          (F32.finite (5 * 2 ^ 148))).get_progress).mem01 = true :=
  ⟨(claim_C4_set_progress_amended ProgressBar.mkDefault (F32.finite (5 * 2 ^ 148))).1,
    (claim_C4_set_progress_amended ProgressBar.mkDefault
      (F32.finite (5 * 2 ^ 148))).2 (by decide)⟩

/-- C4 counterexample: at x = NaN the claimed conjunction fails, because
the stored value is NaN and therefore not in [0.0, 1.0]. -/
theorem claim_C4_counterexample :
    ((ProgressBar.mkDefault.set_progress F32.nan).get_progress = F32.nan.clamp01 ∧
      ((ProgressBar.mkDefault.set_progress F32.nan).get_progress).mem01 = true)
      = False :=
  eq_false (by decide)

/-- C5 (confirmed): increase_progress(x) stores exactly
clamp(p + x, 0.0, 1.0) where p is the previous progress and + is f32
addition; a negative x therefore acts as a decrease. -/
theorem claim_C5_increase_progress (bar : ProgressBar) (x : F32) :
    (bar.increase_progress x).get_progress = ((bar.get_progress).add x).clamp01 :=
  rfl

/-- C9 (confirmed): one tick of the update_progress_bar system leaves every
queried ProgressBar untouched: the pairing list, and in particular every
bar's progress, sections and empty_color, are unchanged (the system reads
the bars through a shared reference and writes only the two asset
collections). -/
theorem claim_C9_tick_preserves_bars (w : World) :
    (tick w).pairs = w.pairs ∧
      (tick w).pairs.map (fun p => (p.1.progress, p.1.sections, p.1.empty_color)) =
        w.pairs.map (fun p => (p.1.progress, p.1.sections, p.1.empty_color)) :=
  ⟨rfl, rfl⟩

/-- C8 (confirmed): when the material handle of the first queried pairing
does not resolve, the system skips that pairing without changing any
state and processes the remaining pairings exactly as if the skipped one
were absent. -/
theorem claim_C8_skip_unresolved (bar : ProgressBar) (h : ℕ)
    (rest : List (ProgressBar × ℕ)) (materials : Assets ProgressBarMaterial)
    (buffers : Assets ShaderStorageBuffer)
    (hnone : materials.get h = none) :
    update_progress_bar ((bar, h) :: rest) materials buffers =
      update_progress_bar rest materials buffers := by
  simp only [update_progress_bar, List.foldl_cons, update_step, hnone]

/-- C8 witness: skipping at a concrete unresolved handle. -/
theorem claim_C8_witness :
    update_progress_bar [(ProgressBar.mkDefault, 7)] (Assets.mk 0 []) (Assets.mk 0 []) =
      update_progress_bar [] (Assets.mk 0 []) (Assets.mk 0 []) :=
  claim_C8_skip_unresolved ProgressBar.mkDefault 7 [] (Assets.mk 0 []) (Assets.mk 0 [])
    rfl

/-- Folding the wrapping u32 addition from a reduced accumulator computes
the mathematical sum modulo 2^32. -/
theorem total_amount_foldl (l : List (ℕ × Color)) :
    ∀ a : ℕ, l.foldl (fun acc s => (acc + s.1) % 2 ^ 32) (a % 2 ^ 32) =
      (a + (l.map Prod.fst).sum) % 2 ^ 32 := by
  induction l with
  | nil =>
    intro a
    simp
  | cons s t ih =>
    intro a
    simp only [List.foldl_cons, List.map_cons, List.sum_cons]
    rw [Nat.mod_add_mod, ih (a + s.1), Nat.add_assoc]

/-- The u32 weight total equals the mathematical weight sum modulo 2^32. -/
theorem total_amount_eq_sum_mod (l : List (ℕ × Color)) :
    total_amount l = (l.map Prod.fst).sum % 2 ^ 32 := by
  have h := total_amount_foldl l 0
  rw [Nat.zero_mod] at h
  simpa [total_amount] using h

/-- C10 (confirmed): the section weight total feeding every per-section
fraction is computed in 32-bit unsigned arithmetic: it always equals the
mathematical sum of the weights modulo 2^32 (the release-build wrapping
semantics), and whenever the mathematical sum reaches 2^32 it differs
from that sum. -/
theorem claim_C10_total_u32 (l : List (ℕ × Color)) :
    total_amount l = (l.map Prod.fst).sum % 2 ^ 32 ∧
      (2 ^ 32 ≤ (l.map Prod.fst).sum →
        total_amount l ≠ (l.map Prod.fst).sum) := by
  refine ⟨total_amount_eq_sum_mod l, fun hge => ?_⟩
  have hlt : total_amount l < 2 ^ 32 := by
    rw [total_amount_eq_sum_mod l]
    exact Nat.mod_lt _ (by positivity)
  omega

/-- C10 witness: two weights of 2^31 wrap to a total of 0. -/
theorem claim_C10_witness :
    total_amount [(2 ^ 31, Color.NONE), (2 ^ 31, Color.NONE)] =
        ([(2 ^ 31, Color.NONE), (2 ^ 31, Color.NONE)].map Prod.fst).sum % 2 ^ 32 ∧
      total_amount [(2 ^ 31, Color.NONE), (2 ^ 31, Color.NONE)] ≠
        ([(2 ^ 31, Color.NONE), (2 ^ 31, Color.NONE)].map Prod.fst).sum :=
  ⟨(claim_C10_total_u32 [(2 ^ 31, Color.NONE), (2 ^ 31, Color.NONE)]).1,
    (claim_C10_total_u32 [(2 ^ 31, Color.NONE), (2 ^ 31, Color.NONE)]).2 (by decide)⟩

/-- Resolving the handle just returned by Assets::add yields the asset
just added. -/
theorem Assets.get_add_self {α : Type} (assets : Assets α) (a : α) :
    (assets.add a).2.get (assets.add a).1 = some a := by
  simp only [Assets.get, Assets.add]
  rw [List.find?_cons_of_pos _ (by simp)]
  rfl

/-- Assets::add does not disturb resolution of any other handle. -/
theorem Assets.get_add_ne {α : Type} (assets : Assets α) (a : α) (id : ℕ)
    (h : id ≠ assets.nextId) :
    (assets.add a).2.get id = assets.get id := by
  simp only [Assets.get, Assets.add]
  rw [List.find?_cons_of_neg _ (by simpa using fun he => h he.symm)]

/-- The two handles stored by the material update and the next fresh
buffer id, in terms of the incoming buffer collection. -/
theorem update_handles (mat : ProgressBarMaterial) (bar : ProgressBar)
    (bufs : Assets ShaderStorageBuffer) :
    (mat.update bar bufs).1.sections_color = bufs.nextId ∧
      (mat.update bar bufs).1.sections_start_percentage = bufs.nextId + 1 ∧
      (mat.update bar bufs).2.nextId = bufs.nextId + 2 :=
  ⟨rfl, rfl, rfl⟩

/-- Resolving the color handle stored by the update yields the freshly
built per-section linear color list. -/
theorem update_get_colors (mat : ProgressBarMaterial) (bar : ProgressBar)
    (bufs : Assets ShaderStorageBuffer) :
    (mat.update bar bufs).2.get (mat.update bar bufs).1.sections_color =
      some (ShaderStorageBuffer.colorData (colorList bar)) := by
  show ((bufs.add (ShaderStorageBuffer.colorData (colorList bar))).2.add
      (ShaderStorageBuffer.floatData (pctList bar))).2.get bufs.nextId =
    some (ShaderStorageBuffer.colorData (colorList bar))
  rw [Assets.get_add_ne _ _ _ (by show bufs.nextId ≠ bufs.nextId + 1; omega)]
  exact Assets.get_add_self bufs (ShaderStorageBuffer.colorData (colorList bar))

/-- Resolving the percentage handle stored by the update yields the
freshly built per-section percentage list. -/
theorem update_get_pcts (mat : ProgressBarMaterial) (bar : ProgressBar)
    (bufs : Assets ShaderStorageBuffer) :
    (mat.update bar bufs).2.get (mat.update bar bufs).1.sections_start_percentage =
      some (ShaderStorageBuffer.floatData (pctList bar)) :=
  Assets.get_add_self (bufs.add (ShaderStorageBuffer.colorData (colorList bar))).2
    (ShaderStorageBuffer.floatData (pctList bar))

/-- C7 (amended): after every material update the stored buffers hold the
freshly built color and percentage lists, both lists have exactly one entry
per section (equal lengths), always rebuilt together; sections_count is the
u32 cast of that common length, so it equals the length exactly when the
number of sections is below 2^32, and wraps otherwise. -/
theorem claim_C7_parallel_buffers (mat : ProgressBarMaterial) (bar : ProgressBar)
    (bufs : Assets ShaderStorageBuffer) :
    (mat.update bar bufs).2.get (mat.update bar bufs).1.sections_color =
        some (ShaderStorageBuffer.colorData (colorList bar)) ∧
      (mat.update bar bufs).2.get (mat.update bar bufs).1.sections_start_percentage =
        some (ShaderStorageBuffer.floatData (pctList bar)) ∧
      (colorList bar).length = bar.sections.length ∧
      (pctList bar).length = bar.sections.length ∧
      (mat.update bar bufs).1.sections_count = bar.sections.length % 2 ^ 32 ∧
      (bar.sections.length < 2 ^ 32 →
        (mat.update bar bufs).1.sections_count = bar.sections.length) := by
  refine ⟨update_get_colors mat bar bufs, update_get_pcts mat bar bufs, ?_, ?_, rfl,
    fun h => ?_⟩
  · simp [colorList]
  · simp [pctList]
  · show bar.sections.length % 2 ^ 32 = bar.sections.length
    exact Nat.mod_eq_of_lt h

/-- C7 witness: the parallel lengths and the count at the concrete
two-section bar. -/
theorem claim_C7_witness :
    (ProgressBarMaterial.mkDefault.update bar109 bufs0).1.sections_count =
        bar109.sections.length ∧
      (colorList bar109).length = (pctList bar109).length :=
  ⟨(claim_C7_parallel_buffers ProgressBarMaterial.mkDefault bar109 bufs0).2.2.2.2.2
      (by decide),
    by decide⟩

/-- The count stored by the update is the u32 cast of the section-list
length. -/
theorem update_sections_count_eq (mat : ProgressBarMaterial) (bar : ProgressBar)
    (bufs : Assets ShaderStorageBuffer) :
    (mat.update bar bufs).1.sections_count = bar.sections.length % 2 ^ 32 :=
  rfl

/-- The sections of a freshly constructed bar are the given list. -/
theorem ProgressBar.sections_new (ss : List (ℕ × Color)) :
    (ProgressBar.new ss).sections = ss :=
  rfl

/-- C7 counterexample: a bar with 2^32 sections has color and percentage
lists of length 2^32, but the stored sections_count is the u32 cast of the
length, which wraps to 0, so the three quantities are not all equal. -/
theorem claim_C7_counterexample :
    ((ProgressBarMaterial.mkDefault.update
          (ProgressBar.new (List.replicate (2 ^ 32) (0, cRed))) bufs0).1.sections_count =
        (ProgressBar.new (List.replicate (2 ^ 32) (0, cRed))).sections.length) =
      False := by
  rw [update_sections_count_eq, ProgressBar.sections_new, List.length_replicate]
  refine eq_false ?_
  rw [Nat.mod_self]
  decide

/-- The percentage expression at a zero weight under a zero total is NaN:
0u32 as f32 / 0u32 as f32 is 0.0 / 0.0 = NaN, and 1.0 / NaN = NaN. -/
theorem pct_zero_zero_nan :
    F32.div F32.one (F32.div (F32.ofNat 0) (F32.ofNat 0)) = F32.nan := by
  decide

/-- C1 (amended): when every section weight is zero the update never
divides by a zero integer (the f32 division is total and yields NaN),
and the percentage buffer holds one NaN per section; sections_count is
the section-list length, so it is 0 exactly when the section list is
empty, in which case both buffers are empty — a non-empty all-zero
section list yields a nonzero sections_count, not the claimed 0. -/
theorem claim_C1_zero_weights_amended (mat : ProgressBarMaterial)
    (bar : ProgressBar) (bufs : Assets ShaderStorageBuffer)
    (h : ∀ s ∈ bar.sections, s.1 = 0) :
    (mat.update bar bufs).2.get (mat.update bar bufs).1.sections_start_percentage =
        some (ShaderStorageBuffer.floatData (bar.sections.map (fun _ => F32.nan))) ∧
      (mat.update bar bufs).1.sections_count = bar.sections.length % 2 ^ 32 ∧
      (bar.sections = [] →
        (mat.update bar bufs).1.sections_count = 0 ∧
          (mat.update bar bufs).2.get
              (mat.update bar bufs).1.sections_start_percentage =
            some (ShaderStorageBuffer.floatData []) ∧
          (mat.update bar bufs).2.get (mat.update bar bufs).1.sections_color =
            some (ShaderStorageBuffer.colorData [])) := by
  have htot : total_amount bar.sections = 0 := by
    rw [total_amount_eq_sum_mod]
    have hz : (bar.sections.map Prod.fst).sum = 0 := by
      refine List.sum_eq_zero ?_
      intro x hx
      rcases List.mem_map.mp hx with ⟨s, hs, rfl⟩
      exact h s hs
    rw [hz, Nat.zero_mod]
  have hpct : pctList bar = bar.sections.map (fun _ => F32.nan) := by
    refine List.map_congr_left ?_
    intro s hs
    rw [htot, h s hs]
    exact pct_zero_zero_nan
  refine ⟨?_, rfl, fun he => ⟨?_, ?_, ?_⟩⟩
  · rw [update_get_pcts mat bar bufs, hpct]
  · show bar.sections.length % 2 ^ 32 = 0
    rw [he]
    rfl
  · rw [update_get_pcts mat bar bufs, hpct, he]
    rfl
  · rw [update_get_colors mat bar bufs]
    show some (ShaderStorageBuffer.colorData (bar.sections.map _)) = _
    rw [he]
    rfl

/-- C1 witness: the amended behavior at a one-section bar of weight 0
and at the empty bar. -/
theorem claim_C1_witness :
    (ProgressBarMaterial.mkDefault.update (ProgressBar.new [(0, cRed)]) bufs0).2.get
        (ProgressBarMaterial.mkDefault.update (ProgressBar.new [(0, cRed)])
          bufs0).1.sections_start_percentage =
      some (ShaderStorageBuffer.floatData
        ((ProgressBar.new [(0, cRed)]).sections.map (fun _ => F32.nan))) :=
  (claim_C1_zero_weights_amended ProgressBarMaterial.mkDefault
    (ProgressBar.new [(0, cRed)]) bufs0 (by decide)).1

/-- C1 counterexample: a non-empty section list whose weights are all zero
has total weight zero, yet the update reports sections_count = 1, not the
claimed 0. -/
theorem claim_C1_counterexample :
    ((ProgressBarMaterial.mkDefault.update (ProgressBar.new [(0, cRed)])
        bufs0).1.sections_count = 0) = False :=
  eq_false (by decide)

/-- C2 (amended): running the material update twice with no intervening
mutation of the bar reproduces bit-identical scalar fields (empty_color,
progress, sections_count) and bit-identical referenced buffer contents,
but the two buffer-handle fields differ between the runs because each
update registers fresh buffers. -/
theorem claim_C2_update_twice_amended (mat : ProgressBarMaterial)
    (bar : ProgressBar) (bufs : Assets ShaderStorageBuffer) :
    let r1 := mat.update bar bufs
    let r2 := r1.1.update bar r1.2
    (r2.1.empty_color = r1.1.empty_color ∧ r2.1.progress = r1.1.progress ∧
        r2.1.sections_count = r1.1.sections_count) ∧
      (r2.2.get r2.1.sections_color = r2.2.get r1.1.sections_color ∧
        r2.2.get r2.1.sections_start_percentage =
          r2.2.get r1.1.sections_start_percentage) ∧
      ((r2.1.sections_color == r1.1.sections_color) = false ∧
        (r2.1.sections_start_percentage == r1.1.sections_start_percentage) = false) := by
  intro r1 r2
  have hn1 : r1.2.nextId = bufs.nextId + 2 := rfl
  have hcol2 : r2.2.get r2.1.sections_color =
      some (ShaderStorageBuffer.colorData (colorList bar)) :=
    update_get_colors r1.1 bar r1.2
  have hpct2 : r2.2.get r2.1.sections_start_percentage =
      some (ShaderStorageBuffer.floatData (pctList bar)) :=
    update_get_pcts r1.1 bar r1.2
  have hcol1 : r2.2.get bufs.nextId =
      some (ShaderStorageBuffer.colorData (colorList bar)) := by
    have s1 : r2.2.get bufs.nextId =
        (r1.2.add (ShaderStorageBuffer.colorData (colorList bar))).2.get bufs.nextId :=
      Assets.get_add_ne _ _ _ (by show bufs.nextId ≠ bufs.nextId + 2 + 1; omega)
    have s2 : (r1.2.add (ShaderStorageBuffer.colorData (colorList bar))).2.get
          bufs.nextId = r1.2.get bufs.nextId :=
      Assets.get_add_ne _ _ _ (by show bufs.nextId ≠ bufs.nextId + 2; omega)
    have s3 : r1.2.get bufs.nextId =
        some (ShaderStorageBuffer.colorData (colorList bar)) :=
      update_get_colors mat bar bufs
    rw [s1, s2, s3]
  have hpct1 : r2.2.get (bufs.nextId + 1) =
      some (ShaderStorageBuffer.floatData (pctList bar)) := by
    have s1 : r2.2.get (bufs.nextId + 1) =
        (r1.2.add (ShaderStorageBuffer.colorData (colorList bar))).2.get
          (bufs.nextId + 1) :=
      Assets.get_add_ne _ _ _ (by show bufs.nextId + 1 ≠ bufs.nextId + 2 + 1; omega)
    have s2 : (r1.2.add (ShaderStorageBuffer.colorData (colorList bar))).2.get
          (bufs.nextId + 1) = r1.2.get (bufs.nextId + 1) :=
      Assets.get_add_ne _ _ _ (by show bufs.nextId + 1 ≠ bufs.nextId + 2; omega)
    have s3 : r1.2.get (bufs.nextId + 1) =
        some (ShaderStorageBuffer.floatData (pctList bar)) :=
      update_get_pcts mat bar bufs
    rw [s1, s2, s3]
  refine ⟨⟨rfl, rfl, rfl⟩, ⟨?_, ?_⟩, ⟨?_, ?_⟩⟩
  · rw [hcol2]
    exact hcol1.symm
  · rw [hpct2]
    exact hpct1.symm
  · show (bufs.nextId + 2 == bufs.nextId) = false
    rw [beq_eq_false_iff_ne]
    omega
  · show (bufs.nextId + 2 + 1 == bufs.nextId + 1) = false
    rw [beq_eq_false_iff_ne]
    omega

/-- C2 counterexample: at a concrete bar and empty buffer collection the
two consecutively derived materials are not equal as records, because the
second run stores fresh buffer handles. -/
theorem claim_C2_counterexample :
    (((ProgressBarMaterial.mkDefault.update ProgressBar.mkDefault bufs0).1.update
          ProgressBar.mkDefault
          (ProgressBarMaterial.mkDefault.update ProgressBar.mkDefault bufs0).2).1 =
        (ProgressBarMaterial.mkDefault.update ProgressBar.mkDefault bufs0).1) =
      False :=
  eq_false (by decide)

/-- C6 (amended): the update appends, for each section in list order, the
f32 value of 1.0 / (total_weight / weight) alongside the section colors in
matching order; in exact arithmetic that expression equals weight / total,
but in f32 it is doubly rounded, so for weights [10, 9] the computed
fractions are [f32(10/19), v] where v is exactly one ulp (2^(-25), scaled
2^124) below f32(9/19). -/
theorem claim_C6_fractions_amended :
    (∀ (mat : ProgressBarMaterial) (bar : ProgressBar)
        (bufs : Assets ShaderStorageBuffer),
      (mat.update bar bufs).2.get (mat.update bar bufs).1.sections_start_percentage =
          some (ShaderStorageBuffer.floatData (pctList bar)) ∧
        (mat.update bar bufs).2.get (mat.update bar bufs).1.sections_color =
          some (ShaderStorageBuffer.colorData (colorList bar))) ∧
      pctList bar109 =
        [F32.ofRatParts false 10 19,
          F32.finite 338032334840265488108338908683777502099800064] ∧
      F32.ofRatParts false 9 19 =
        F32.finite (338032334840265488108338908683777502099800064 + 2 ^ 124) ∧
      colorList bar109 = [cRed.to_linear, cBlue.to_linear] :=
  ⟨fun mat bar bufs => ⟨update_get_pcts mat bar bufs, update_get_colors mat bar bufs⟩,
    by decide, by decide, by decide⟩

/-- C6 counterexample: for weights [10, 9] the computed percentage list is
not [f32(10/19), f32(9/19)]: the second entry disagrees with the correctly
rounded 9/19 by one ulp because the code evaluates 1.0 / (19.0 / 9.0). -/
theorem claim_C6_counterexample :
    (pctList bar109 = [F32.ofRatParts false 10 19, F32.ofRatParts false 9 19]) =
      False :=
  eq_false (by decide)

example : F32.ofRatParts false 10 19 =
    F32.finite 375591511512714452420804076040970066091573248 := by decide
example : F32.ofRatParts false 9 19 =
    F32.finite 338032356107913420666992875144690466585313280 := by decide
example : F32.div F32.one (F32.div (F32.ofNat 19) (F32.ofNat 10)) =
    F32.ofRatParts false 10 19 := by decide
example : F32.div F32.one (F32.div (F32.ofNat 19) (F32.ofNat 9)) =
    F32.finite 338032334840265488108338908683777502099800064 := by decide
example : F32.ofRatParts false 1 (2 ^ 150) = F32.finite 0 := by decide
example : F32.ofRatParts false 3 (2 ^ 150) = F32.finite 2 := by decide
example : F32.ofNat 16777217 = F32.finite (16777216 * 2 ^ 149) := by decide
example : F32.ofNat (2 ^ 31) = F32.finite (2 ^ 31 * 2 ^ 149) := by decide
example : F32.ofRatParts false (2 ^ 128) 1 = F32.posInf := by decide
example : F32.div F32.one (F32.div (F32.ofNat 0) (F32.ofNat 0)) = F32.nan := by decide
